import Mathlib

/-!
Verification of the Project Andromeda weapon balance simulator interface.

The development has two parts.

Part one embeds the Google Apps Script caller
(Gear balance google_sheets_custom_duel.gs: runCustomDuelSimulation,
readProperties_, asPercent_, writeStatus_) as pure Lean functions over an
explicit model of the spreadsheet inputs, the JSON payload and the HTTP
response. JavaScript runtime behaviour that the script relies on
(string trimming, parseInt, Number coercion, truthiness of the logical-or
operator, JSON serialisation of the object literal) is modelled explicitly.

Part two models the simulator engine itself. The engine sources
(weapons_sim.py, sim_rules.py) are not part of the repository excerpt, so
those definitions are modelled from the specification text and are marked
as such in their doc comments.
-/

namespace Andromeda

/-- JavaScript values as far as the Apps Script caller inspects them:
null, undefined, numbers (modelled as rationals) and strings. -/
inductive JsValue where
  | null
  | undefined
  | num (q : ℚ)
  | str (s : String)
deriving DecidableEq, Repr

/-- Model of the JavaScript string trim method: remove whitespace from both
ends of the string. -/
def jsTrim (s : String) : String :=
  String.mk (((s.data.dropWhile Char.isWhitespace).reverse.dropWhile
    Char.isWhitespace).reverse)

/-- Numeric value of a list of decimal digit characters. -/
def digitsVal (ds : List Char) : Nat :=
  ds.foldl (fun n c => n * 10 + (c.toNat - 48)) 0

/-- Model of the JavaScript parseInt function with radix 10: skip leading
whitespace, read an optional sign and then the longest prefix of decimal
digits, ignoring anything after it; the result is NaN (modelled as none)
when no digit is read. -/
def jsParseInt (s : String) : Option Int :=
  let cs := s.data.dropWhile Char.isWhitespace
  let signAndRest : Int × List Char :=
    match cs with
    | '-' :: rest => (-1, rest)
    | '+' :: rest => (1, rest)
    | _ => (1, cs)
  let digits := signAndRest.2.takeWhile Char.isDigit
  if digits.isEmpty then none
  else some (signAndRest.1 * (digitsVal digits : Int))

/-- Model of the JavaScript Number coercion on strings: the trimmed empty
string is 0; otherwise an optional sign followed by decimal digits with an
optional fractional part; anything else is NaN (modelled as none).
Exotic forms (exponents, hex literals) are outside the model. -/
def jsStrToNumber (s : String) : Option ℚ :=
  let t := (jsTrim s).data
  if t.isEmpty then some 0
  else
    let signAndRest : ℚ × List Char :=
      match t with
      | '-' :: rest => (-1, rest)
      | '+' :: rest => (1, rest)
      | _ => (1, t)
    let intDigits := signAndRest.2.takeWhile Char.isDigit
    let afterInt := signAndRest.2.dropWhile Char.isDigit
    match afterInt with
    | [] =>
      if intDigits.isEmpty then none
      else some (signAndRest.1 * (digitsVal intDigits : ℚ))
    | '.' :: fracPart =>
      let fracDigits := fracPart.takeWhile Char.isDigit
      let afterFrac := fracPart.dropWhile Char.isDigit
      if !afterFrac.isEmpty then none
      else if intDigits.isEmpty && fracDigits.isEmpty then none
      else some (signAndRest.1 *
        ((digitsVal intDigits : ℚ) +
          (digitsVal fracDigits : ℚ) / (10 : ℚ) ^ fracDigits.length))
    | _ => none

/-- Model of the JavaScript Number coercion: Number(null) is 0,
Number(undefined) is NaN (none), numbers coerce to themselves and strings
go through jsStrToNumber. -/
def jsToNumber : JsValue → Option ℚ
  | JsValue.null => some 0
  | JsValue.undefined => none
  | JsValue.num q => some q
  | JsValue.str s => jsStrToNumber s

/-- Model of JavaScript truthiness for the values the script tests with
the logical-or operator: null, undefined, 0 and the empty string are falsy. -/
def jsTruthy : JsValue → Bool
  | JsValue.null => false
  | JsValue.undefined => false
  | JsValue.num q => decide (q ≠ 0)
  | JsValue.str s => decide (s ≠ "")

/-- Model of the JavaScript logical-or with a fallback value, as used in
result.avg_rounds or empty-string and body.simulations or empty-string. -/
def jsOr (v fallback : JsValue) : JsValue :=
  if jsTruthy v then v else fallback

/-- Embedding of asPercent_ from the Apps Script: return the empty string
for null, undefined or a value whose Number coercion is NaN, and the
coerced number otherwise. -/
def asPercent_ (value : JsValue) : JsValue :=
  if value = JsValue.null ∨ value = JsValue.undefined then JsValue.str ""
  else
    match jsToNumber value with
    | none => JsValue.str ""
    | some q => JsValue.num q

/-- Embedding of readProperties_ from the Apps Script: walk the rectangle
of display values row by row and, inside a row, column by column, trimming
each cell and pushing the trimmed value when it is non-empty. -/
def readProperties_ (values : List (List String)) : List String :=
  values.foldl
    (fun properties row =>
      row.foldl
        (fun acc cell =>
          let value := jsTrim cell
          if value = "" then acc else acc ++ [value])
        properties)
    []

/-- JSON values, used for the request body the script builds and sends. -/
inductive Json where
  | null
  | str (s : String)
  | num (q : ℚ)
  | arr (xs : List Json)
  | obj (fields : List (String × Json))

/-- Spreadsheet inputs read by runCustomDuelSimulation: the display values
of the rank cell, the two weapon type and damage cells, and the two
property ranges (rectangles of display values). -/
structure SheetInputs where
  rankCell : String
  weapon1Type : String
  weapon1Damage : String
  weapon1Properties : List (List String)
  weapon2Type : String
  weapon2Damage : String
  weapon2Properties : List (List String)
deriving Repr

/-- Value of CONFIG.confidence in the Apps Script. -/
def configConfidence : ℚ := 99 / 100

/-- Rank field of the payload: the trimmed display value of the rank cell,
with the empty string replaced by the string 1 through the logical-or, then
parseInt with radix 10. JSON serialisation turns NaN into null. -/
def rankJson (cell : String) : Json :=
  let t := jsTrim cell
  let s := if t = "" then "1" else t
  match jsParseInt s with
  | none => Json.null
  | some n => Json.num (n : ℚ)

/-- Request body built by runCustomDuelSimulation: an object literal with
the fields rank, confidence, weapon1 and weapon2, each weapon an object
with weapon_type, damage and properties. -/
def buildPayload (inp : SheetInputs) : Json :=
  Json.obj [
    ("rank", rankJson inp.rankCell),
    ("confidence", Json.num configConfidence),
    ("weapon1", Json.obj [
      ("weapon_type", Json.str (jsTrim inp.weapon1Type)),
      ("damage", Json.str (jsTrim inp.weapon1Damage)),
      ("properties", Json.arr ((readProperties_ inp.weapon1Properties).map Json.str))]),
    ("weapon2", Json.obj [
      ("weapon_type", Json.str (jsTrim inp.weapon2Type)),
      ("damage", Json.str (jsTrim inp.weapon2Damage)),
      ("properties", Json.arr ((readProperties_ inp.weapon2Properties).map Json.str))])]

/-- Fields of body.result in a success response; a field absent from the
parsed JSON object reads as undefined. -/
structure ResultFields where
  weapon1_win_rate : JsValue
  weapon2_win_rate : JsValue
  avg_rounds : JsValue
deriving Repr

/-- Parsed HTTP response as the script inspects it: the status code,
body.error, body.result and body.simulations. An absent body or an absent
field reads as undefined or none. -/
structure HttpResponse where
  statusCode : Nat
  bodyError : Option String
  bodyResult : Option ResultFields
  bodySimulations : JsValue
deriving Repr

/-- Result object used when body.result is absent: every field undefined. -/
def missingResult : ResultFields :=
  { weapon1_win_rate := JsValue.undefined
    weapon2_win_rate := JsValue.undefined
    avg_rounds := JsValue.undefined }

/-- Observable effects of one run of runCustomDuelSimulation: the request
body sent to the endpoint, the successive writes to the status cell, the
value written to each of the four result cells (none when the cell is
never written) and the message of the thrown error, when any. -/
structure RunOutcome where
  sentBody : Json
  statusWrites : List String
  weapon1WinRateCell : Option JsValue
  weapon2WinRateCell : Option JsValue
  averageRoundsCell : Option JsValue
  usedSimulationsCell : Option JsValue
  thrown : Option String

/-- Fallback error text built from the status code when body.error is
falsy. -/
def httpFallback (code : Nat) : String := "HTTP " ++ toString code

/-- Embedding of runCustomDuelSimulation from the Apps Script. The fetch
argument models UrlFetchApp.fetch on the configured endpoint: it maps the
request body to the HTTP response. The function writes the running status,
builds the payload, sends it, and either handles the error branch (status
code at least 400: write the error status and throw, leaving the result
cells untouched) or writes the four result cells and the done status. -/
def runCustomDuelSimulation (fetch : Json → HttpResponse)
    (inp : SheetInputs) : RunOutcome :=
  let payload := buildPayload inp
  let response := fetch payload
  if 400 ≤ response.statusCode then
    let errorText :=
      match response.bodyError with
      | some e => if e = "" then httpFallback response.statusCode else e
      | none => httpFallback response.statusCode
    { sentBody := payload
      statusWrites := ["Running simulation...", "Error: " ++ errorText]
      weapon1WinRateCell := none
      weapon2WinRateCell := none
      averageRoundsCell := none
      usedSimulationsCell := none
      thrown := some errorText }
  else
    let result := response.bodyResult.getD missingResult
    { sentBody := payload
      statusWrites := ["Running simulation...", "Done"]
      weapon1WinRateCell := some (asPercent_ result.weapon1_win_rate)
      weapon2WinRateCell := some (asPercent_ result.weapon2_win_rate)
      averageRoundsCell := some (jsOr result.avg_rounds (JsValue.str ""))
      usedSimulationsCell := some (jsOr response.bodySimulations (JsValue.str ""))
      thrown := none }

/-- Modelled from the spec: category of a combat property (offensive,
defensive or utility). The engine sources are not in the excerpt. -/
inductive PropertyCategory where
  | offensive
  | defensive
  | utility
deriving DecidableEq, Repr

/-- Modelled from the spec: a PropertyDefinition of the Property Catalog,
with its exact string identifier, numeric magnitude and category. The
catalog itself is a list of definitions. -/
structure PropertyDefinition where
  identifier : String
  magnitude : Nat
  category : PropertyCategory
deriving DecidableEq, Repr

/-- Modelled from the spec: a normalized WeaponSpec produced by the
Loadout Parser, with the weapon type tag, the base damage expression, the
ordered list of resolved properties and the participant rank. -/
structure WeaponSpec where
  weaponType : String
  damage : String
  properties : List PropertyDefinition
  rank : Nat
deriving DecidableEq, Repr

/-- Modelled from the spec: the ValidationError raised by the Loadout
Parser, naming the first unrecognized property or the malformed damage
expression. -/
inductive ValidationError where
  | unknownProperty (name : String)
  | malformedDamage (expr : String)
deriving DecidableEq, Repr

/-- Modelled from the spec: exact-string lookup of a property identifier
in the Property Catalog. Matching is character for character, so a name
differing in casing or by a homoglyph is not found. -/
def lookupProperty (catalog : List PropertyDefinition) (name : String) :
    Option PropertyDefinition :=
  catalog.find? (fun d => d.identifier == name)

/-- Modelled from the spec: resolve the property names of a loadout in
order, failing with a ValidationError naming the first name whose exact
lookup in the catalog fails. -/
def resolveProperties (catalog : List PropertyDefinition) :
    List String → Except ValidationError (List PropertyDefinition)
  | [] => Except.ok []
  | p :: rest =>
    match lookupProperty catalog p with
    | none => Except.error (ValidationError.unknownProperty p)
    | some d =>
      match resolveProperties catalog rest with
      | Except.error e => Except.error e
      | Except.ok ds => Except.ok (d :: ds)

/-- Modelled from the spec: the Loadout Parser. Property names are
resolved first, by exact-string catalog lookup; the damage expression is
then checked by the damage grammar (abstracted as a predicate, since the
dice grammar is not in the excerpt). -/
def parseLoadout (catalog : List PropertyDefinition)
    (damageOk : String → Bool) (weaponType damage : String)
    (props : List String) (rank : Nat) :
    Except ValidationError WeaponSpec :=
  match resolveProperties catalog props with
  | Except.error e => Except.error e
  | Except.ok ds =>
    if damageOk damage then
      Except.ok { weaponType := weaponType, damage := damage,
                  properties := ds, rank := rank }
    else Except.error (ValidationError.malformedDamage damage)

/-- Modelled from the spec: mutable per-trial combatant state, with the
current health, the maximum health, and active status effects (bleed
stacks with a remaining duration, a stun counter). -/
structure Combatant where
  health : Int
  maxHealth : Nat
  bleedStacks : Nat
  bleedDuration : Nat
  stunRounds : Nat
deriving DecidableEq, Repr

/-- Modelled from the spec: the pair of combatant states of one trial. -/
structure DuelState where
  side1 : Combatant
  side2 : Combatant
deriving DecidableEq, Repr

/-- Modelled from the spec: the winner identifier of a trial. The fixed
draw policy is that every trial is tie-broken to a winner, so the type has
no draw alternative. -/
inductive Winner where
  | side1
  | side2
deriving DecidableEq, Repr

/-- Modelled from the spec: a TrialResult, the winner and the round count
at termination of one trial. -/
structure TrialResult where
  winner : Winner
  rounds : Nat
deriving DecidableEq, Repr

/-- Modelled from the spec: clamp a health value to the valid bounds,
never negative and never above the maximum. -/
def clampHealth (maxHealth : Nat) (h : Int) : Int :=
  max 0 (min (maxHealth : Int) h)

/-- Modelled from the spec: apply a damage or healing delta to a
combatant, clamping the resulting health to the valid bounds. -/
def applyDelta (c : Combatant) (delta : Int) : Combatant :=
  { c with health := clampHealth c.maxHealth (c.health + delta) }

/-- Modelled from the spec: start-of-round status effects. An active bleed
deals its stacks as damage, then durations decrement and a status reaching
zero duration is removed; the stun counter decrements. -/
def tickStatuses (c : Combatant) : Combatant :=
  let afterBleed :=
    if c.bleedDuration ≠ 0 then applyDelta c (-(c.bleedStacks : Int)) else c
  { afterBleed with
    bleedDuration := c.bleedDuration - 1
    bleedStacks := if c.bleedDuration - 1 = 0 then 0 else c.bleedStacks
    stunRounds := c.stunRounds - 1 }

/-- Modelled from the spec: the health and status deltas produced by the
two actions of a round, as decided by the combat rules and the random
source. Positive values heal, negative values damage. -/
structure RoundAction where
  deltaToSide1 : Int
  deltaToSide2 : Int
deriving DecidableEq, Repr

/-- Modelled from the spec: the Combat Round Engine. Initiative is the
fixed documented policy that side 1 acts first. Start-of-round statuses
apply before actions; a stunned side loses its action for the round; the
resulting deltas are applied clamped to the valid health bounds. The exact
numeric combat formulas are not in the excerpt, so the action resolution
is a parameter mapping the mid-round state, the round number and thus the
random source outcome to the produced deltas. -/
def resolveRound (actionRules : DuelState → Nat → RoundAction)
    (s : DuelState) (roundNumber : Nat) : DuelState :=
  let s1 := tickStatuses s.side1
  let s2 := tickStatuses s.side2
  let mid : DuelState := { side1 := s1, side2 := s2 }
  let act := actionRules mid roundNumber
  let deltaTo2 := if s1.stunRounds ≠ 0 then 0 else act.deltaToSide2
  let deltaTo1 := if s2.stunRounds ≠ 0 then 0 else act.deltaToSide1
  { side1 := applyDelta s1 deltaTo1, side2 := applyDelta s2 deltaTo2 }

/-- Modelled from the spec: terminal condition check. A side whose health
has reached zero loses; side 1 is checked first, so a simultaneous
knockout counts as a win for side 2 (fixed documented policy). -/
def terminalWinner (s : DuelState) : Option Winner :=
  if s.side1.health ≤ 0 then some Winner.side2
  else if s.side2.health ≤ 0 then some Winner.side1
  else none

/-- Modelled from the spec: tie-break at the round cap, by remaining
health; an exact health tie counts for side 2 (fixed documented policy),
so no draw leaks out of a trial. -/
def tieBreakWinner (s : DuelState) : Winner :=
  if s.side2.health < s.side1.health then Winner.side1 else Winner.side2

/-- Modelled from the spec: the loop of the Duel Driver, on fuel given by
the remaining rounds of the hard cap. When the cap runs out the trial is
tie-broken; otherwise the terminal condition is checked and one more round
is resolved by the round function. -/
def duelLoop (round : DuelState → DuelState) :
    Nat → DuelState → Nat → TrialResult
  | 0, s, n => { winner := tieBreakWinner s, rounds := n }
  | fuel + 1, s, n =>
    match terminalWinner s with
    | some w => { winner := w, rounds := n }
    | none => duelLoop round fuel (round s) (n + 1)

/-- Modelled from the spec: the Duel Driver. It repeats rounds from a
fresh pair of combatant states until the terminal condition, under a hard
round cap, and produces one TrialResult. The round function is a
parameter, so the cap guards against any rules behaviour. -/
def runDuel (round : DuelState → DuelState) (roundCap : Nat)
    (s : DuelState) : TrialResult :=
  duelLoop round roundCap s 0

/-- Modelled from the spec: number of trials of a list won by a side. -/
def countWins (w : Winner) (trials : List TrialResult) : Nat :=
  (trials.filter (fun t => decide (t.winner = w))).length

/-- Modelled from the spec: the AggregateResult returned to the caller,
with the win rate of each side, the average round count and the number of
trials actually used. -/
structure AggregateResult where
  weapon1_win_rate : ℚ
  weapon2_win_rate : ℚ
  avg_rounds : ℚ
  simulations : Nat
deriving DecidableEq, Repr

/-- Modelled from the spec: aggregation of a list of trial results into an
AggregateResult. -/
def aggregate (trials : List TrialResult) : AggregateResult :=
  let n := trials.length
  { weapon1_win_rate := (countWins Winner.side1 trials : ℚ) / (n : ℚ)
    weapon2_win_rate := (countWins Winner.side2 trials : ℚ) / (n : ℚ)
    avg_rounds := ((trials.map (fun t => (t.rounds : ℚ))).sum) / (n : ℚ)
    simulations := n }

/-- Modelled from the spec: a whole simulation request over a fixed number
of trials, each trial run by the Duel Driver from the fresh initial state
the trial index and random source give it. -/
def simulateRequest (round : DuelState → DuelState) (roundCap : Nat)
    (initState : Nat → DuelState) (numTrials : Nat) : AggregateResult :=
  aggregate ((List.range numTrials).map
    (fun i => runDuel round roundCap (initState i)))

/-- Modelled from the spec: outcome of the Monte Carlo Controller; a
success carries the aggregate and whether the trial cap was exhausted
before the confidence target was met, a failure carries the fatal engine
error message. -/
inductive ControllerResult where
  | success (result : AggregateResult) (capExhausted : Bool)
  | failure (message : String)
deriving Repr

/-- Modelled from the spec: the loop of the Monte Carlo Controller, on
fuel given by the remaining trials of the cap. Trials run in order and may
fail fatally; the stopping rule is checked on the trials completed so far
before each new trial. Completed trials accumulate in reverse. -/
def mcLoop (trial : Nat → Except String TrialResult)
    (stopRule : List TrialResult → Bool) :
    Nat → List TrialResult → ControllerResult
  | 0, acc => ControllerResult.success (aggregate acc.reverse) true
  | fuel + 1, acc =>
    if stopRule acc.reverse then
      ControllerResult.success (aggregate acc.reverse) false
    else
      match trial acc.length with
      | Except.error e => ControllerResult.failure e
      | Except.ok t => mcLoop trial stopRule fuel (t :: acc)

/-- Modelled from the spec: the Monte Carlo Controller. It runs
independent trials until the stopping rule derived from the confidence
target is met or the trial cap is hit, aggregating the completed trials;
hitting the cap yields the best available aggregate as a degraded
success. -/
def runController (trial : Nat → Except String TrialResult)
    (stopRule : List TrialResult → Bool) (trialCap : Nat) :
    ControllerResult :=
  mcLoop trial stopRule trialCap []

/-- Sample response function: a success response with an empty body. -/
def sampleFetchOk : Json → HttpResponse := fun _ =>
  { statusCode := 200, bodyError := none, bodyResult := none,
    bodySimulations := JsValue.undefined }

/-- Sample response function: a server error response with an error
message in the body. -/
def sampleFetchError : Json → HttpResponse := fun _ =>
  { statusCode := 500, bodyError := some "boom", bodyResult := none,
    bodySimulations := JsValue.undefined }

/-- Sample sheet inputs whose rank cell holds the digit zero. -/
def sampleInputsRankZero : SheetInputs :=
  { rankCell := "0", weapon1Type := "Blade", weapon1Damage := "1d6",
    weapon1Properties := [["Bleed 1"]], weapon2Type := "Blade",
    weapon2Damage := "1d6", weapon2Properties := [[""]] }

/-- Sample sheet inputs whose rank cell holds only whitespace. -/
def sampleInputsRankBlank : SheetInputs :=
  { rankCell := "  ", weapon1Type := "Blade", weapon1Damage := "1d6",
    weapon1Properties := [["Bleed 1"]], weapon2Type := "Blade",
    weapon2Damage := "1d6", weapon2Properties := [[""]] }

/-- Sample catalog with a Latin letter X identifier and a lowercase-B
bleed identifier, used to exercise exact-string matching. -/
def sampleCatalog : List PropertyDefinition :=
  [{ identifier := "Stun X", magnitude := 1,
     category := PropertyCategory.utility },
   { identifier := "Bleed 1", magnitude := 1,
     category := PropertyCategory.offensive }]

/-- Sample combatant at full health with no active statuses. -/
def sampleCombatant : Combatant :=
  { health := 10, maxHealth := 10, bleedStacks := 0, bleedDuration := 0,
    stunRounds := 0 }

/-- Sample duel state pairing two copies of the sample combatant. -/
def sampleDuelState : DuelState :=
  { side1 := sampleCombatant, side2 := sampleCombatant }

/-- Canonical trimmed-cell extraction applied to one cell: none for an
empty or whitespace-only cell, the trimmed content otherwise. -/
def trimmedCell (cell : String) : Option String :=
  if jsTrim cell = "" then none else some (jsTrim cell)

lemma readProperties_row_foldl (row acc : List String) :
    List.foldl
      (fun acc cell =>
        let value := jsTrim cell
        if value = "" then acc else acc ++ [value])
      acc row = acc ++ row.filterMap trimmedCell := by
  induction row generalizing acc with
  | nil => simp
  | cons c cs ih =>
    simp only [List.foldl_cons, List.filterMap_cons, trimmedCell]
    by_cases h : jsTrim c = ""
    · simp [h, ih]
    · simp [h, ih]

lemma readProperties_foldl (values : List (List String))
    (acc : List String) :
    List.foldl
      (fun properties row =>
        List.foldl
          (fun acc cell =>
            let value := jsTrim cell
            if value = "" then acc else acc ++ [value])
          properties row)
      acc values = acc ++ (values.map (fun row => row.filterMap trimmedCell)).flatten := by
  induction values generalizing acc with
  | nil => simp
  | cons row rows ih =>
    simp only [List.foldl_cons, List.map_cons, List.flatten_cons]
    rw [readProperties_row_foldl, ih, List.append_assoc]

/-- C9: readProperties_ returns exactly the trimmed non-empty cell values
of the rectangle in row-major order, skipping empty and whitespace-only
cells and pushing each remaining cell content as one whole string. -/
theorem readProperties_row_major (values : List (List String)) :
    readProperties_ values =
      (values.map (fun row => row.filterMap trimmedCell)).flatten := by
  unfold readProperties_
  rw [readProperties_foldl]
  simp

/-- C10: asPercent_ is total with the documented case split: it returns
the empty string on null, on undefined and on any value whose Number
coercion is NaN, and otherwise returns the coerced number; consequently a
success response with a missing result object gets the empty string
written to the win-rate cell rather than 0 or NaN. -/
theorem asPercent_total_cases :
    (∀ v, asPercent_ v = JsValue.str "" ∨
      ∃ q, jsToNumber v = some q ∧ asPercent_ v = JsValue.num q) ∧
    asPercent_ JsValue.null = JsValue.str "" ∧
    asPercent_ JsValue.undefined = JsValue.str "" ∧
    (∀ v, jsToNumber v = none → asPercent_ v = JsValue.str "") ∧
    (∀ fetch inp, (fetch (buildPayload inp)).statusCode < 400 →
      (fetch (buildPayload inp)).bodyResult = none →
      (runCustomDuelSimulation fetch inp).weapon1WinRateCell =
        some (JsValue.str "")) := by
  refine ⟨?_, rfl, rfl, ?_, ?_⟩
  · intro v
    by_cases hv : v = JsValue.null ∨ v = JsValue.undefined
    · left
      rcases hv with hv | hv <;> simp [asPercent_, hv]
    · cases h : jsToNumber v with
      | none => left; simp [asPercent_, hv, h]
      | some q =>
        right
        exact ⟨q, rfl, by simp [asPercent_, hv, h]⟩
  · intro v h
    by_cases hv : v = JsValue.null ∨ v = JsValue.undefined
    · rcases hv with hv | hv <;> simp [asPercent_, hv]
    · simp [asPercent_, hv, h]
  · intro fetch inp h1 h2
    simp only [runCustomDuelSimulation]
    rw [if_neg (by omega)]
    simp [h2, missingResult, asPercent_]

/-- Witness for C10 at concrete values: a non-numeric string clears the
cell and a plain number is passed through; a 200 response with no result
object clears the win-rate cell. -/
theorem asPercent_total_cases_witness :
    asPercent_ (JsValue.str "abc") = JsValue.str "" ∧
    (runCustomDuelSimulation sampleFetchOk sampleInputsRankZero).weapon1WinRateCell =
      some (JsValue.str "") :=
  ⟨asPercent_total_cases.2.2.2.1 (JsValue.str "abc") (by decide),
   asPercent_total_cases.2.2.2.2 sampleFetchOk sampleInputsRankZero
     (by decide) rfl⟩

lemma runCustomDuelSimulation_sentBody (fetch : Json → HttpResponse)
    (inp : SheetInputs) :
    (runCustomDuelSimulation fetch inp).sentBody = buildPayload inp := by
  simp only [runCustomDuelSimulation]
  by_cases h : 400 ≤ (fetch (buildPayload inp)).statusCode <;> simp [h]

/-- C3: when the response status is at least 400 and the body carries a
non-empty error string, the caller writes the running status and then an
error status containing that string, throws the error string, and never
writes any of the four result cells. -/
theorem runCustomDuelSimulation_error_path (fetch : Json → HttpResponse)
    (inp : SheetInputs) (e : String)
    (hstatus : 400 ≤ (fetch (buildPayload inp)).statusCode)
    (herr : (fetch (buildPayload inp)).bodyError = some e)
    (hne : e ≠ "") :
    (runCustomDuelSimulation fetch inp).thrown = some e ∧
    (runCustomDuelSimulation fetch inp).statusWrites =
      ["Running simulation...", "Error: " ++ e] ∧
    (runCustomDuelSimulation fetch inp).weapon1WinRateCell = none ∧
    (runCustomDuelSimulation fetch inp).weapon2WinRateCell = none ∧
    (runCustomDuelSimulation fetch inp).averageRoundsCell = none ∧
    (runCustomDuelSimulation fetch inp).usedSimulationsCell = none := by
  simp only [runCustomDuelSimulation]
  rw [if_pos hstatus, herr]
  simp [hne]

/-- Witness for C3: a 500 response whose body carries the error string
boom makes the run throw boom, write the error status and leave all four
result cells unwritten. -/
theorem runCustomDuelSimulation_error_path_witness :
    (runCustomDuelSimulation sampleFetchError sampleInputsRankZero).thrown =
      some "boom" ∧
    (runCustomDuelSimulation sampleFetchError sampleInputsRankZero).statusWrites =
      ["Running simulation...", "Error: " ++ "boom"] ∧
    (runCustomDuelSimulation sampleFetchError sampleInputsRankZero).weapon1WinRateCell = none ∧
    (runCustomDuelSimulation sampleFetchError sampleInputsRankZero).weapon2WinRateCell = none ∧
    (runCustomDuelSimulation sampleFetchError sampleInputsRankZero).averageRoundsCell = none ∧
    (runCustomDuelSimulation sampleFetchError sampleInputsRankZero).usedSimulationsCell = none :=
  runCustomDuelSimulation_error_path sampleFetchError sampleInputsRankZero
    "boom" (by decide) rfl (by decide)

/-- C4: every request body the run sends is an object whose top-level
fields are exactly rank, confidence, weapon1 and weapon2, where each
weapon is an object whose fields are exactly weapon_type (a string),
damage (a string) and properties (a list of strings). -/
theorem runCustomDuelSimulation_payload_shape (fetch : Json → HttpResponse)
    (inp : SheetInputs) :
    ∃ (rank : Json) (t1 d1 t2 d2 : String) (ps1 ps2 : List String),
      (runCustomDuelSimulation fetch inp).sentBody = Json.obj [
        ("rank", rank),
        ("confidence", Json.num configConfidence),
        ("weapon1", Json.obj [
          ("weapon_type", Json.str t1),
          ("damage", Json.str d1),
          ("properties", Json.arr (ps1.map Json.str))]),
        ("weapon2", Json.obj [
          ("weapon_type", Json.str t2),
          ("damage", Json.str d2),
          ("properties", Json.arr (ps2.map Json.str))])] :=
  ⟨rankJson inp.rankCell, jsTrim inp.weapon1Type, jsTrim inp.weapon1Damage,
   jsTrim inp.weapon2Type, jsTrim inp.weapon2Damage,
   readProperties_ inp.weapon1Properties, readProperties_ inp.weapon2Properties,
   runCustomDuelSimulation_sentBody fetch inp⟩

/-- C5 counterexample: with the digit zero in the rank cell the run sends
rank 0, and 0 is not at least 1, so the caller does not guarantee a rank
of at least 1. -/
theorem rank_not_bounded_counterexample :
    (runCustomDuelSimulation sampleFetchOk sampleInputsRankZero).sentBody =
      Json.obj [
        ("rank", Json.num 0),
        ("confidence", Json.num configConfidence),
        ("weapon1", Json.obj [
          ("weapon_type", Json.str "Blade"),
          ("damage", Json.str "1d6"),
          ("properties", Json.arr [Json.str "Bleed 1"])]),
        ("weapon2", Json.obj [
          ("weapon_type", Json.str "Blade"),
          ("damage", Json.str "1d6"),
          ("properties", Json.arr [])])] ∧
    ¬ (1 ≤ (0 : ℚ)) := by
  constructor
  · rfl
  · norm_num

/-- C5 amended: a blank or whitespace-only rank cell yields rank 1 in the
request body; no lower bound on other rank values is enforced by the
caller. -/
theorem rank_blank_defaults_to_one (fetch : Json → HttpResponse)
    (inp : SheetInputs) (h : jsTrim inp.rankCell = "") :
    ∃ rest, (runCustomDuelSimulation fetch inp).sentBody =
      Json.obj (("rank", Json.num 1) :: rest) := by
  have hr : rankJson inp.rankCell = Json.num 1 := by
    unfold rankJson
    rw [h]
    rfl
  refine ⟨[("confidence", Json.num configConfidence),
    ("weapon1", Json.obj [
      ("weapon_type", Json.str (jsTrim inp.weapon1Type)),
      ("damage", Json.str (jsTrim inp.weapon1Damage)),
      ("properties", Json.arr ((readProperties_ inp.weapon1Properties).map Json.str))]),
    ("weapon2", Json.obj [
      ("weapon_type", Json.str (jsTrim inp.weapon2Type)),
      ("damage", Json.str (jsTrim inp.weapon2Damage)),
      ("properties", Json.arr ((readProperties_ inp.weapon2Properties).map Json.str))])], ?_⟩
  rw [runCustomDuelSimulation_sentBody]
  unfold buildPayload
  rw [hr]

/-- Witness for the amended C5: a whitespace-only rank cell makes the run
send rank 1. -/
theorem rank_blank_defaults_to_one_witness :
    jsTrim sampleInputsRankBlank.rankCell = "" ∧
    ∃ rest, (runCustomDuelSimulation sampleFetchOk sampleInputsRankBlank).sentBody =
      Json.obj (("rank", Json.num 1) :: rest) :=
  ⟨by decide,
   rank_blank_defaults_to_one sampleFetchOk sampleInputsRankBlank (by decide)⟩

lemma resolveProperties_first_unknown (catalog : List PropertyDefinition)
    (props : List String) (p : String)
    (h : props.find? (fun q => (lookupProperty catalog q).isNone) = some p) :
    resolveProperties catalog props =
      Except.error (ValidationError.unknownProperty p) := by
  induction props with
  | nil => simp at h
  | cons q rest ih =>
    rw [List.find?_cons] at h
    cases hl : lookupProperty catalog q with
    | none =>
      rw [hl] at h
      simp only [Option.isNone_none, cond_true, Option.some.injEq] at h
      subst h
      simp [resolveProperties, hl]
    | some d =>
      rw [hl] at h
      simp only [Option.isNone_some, cond_false] at h
      simp [resolveProperties, hl, ih h]

/-- C2: when some property name of a loadout has no exact-string match in
the Property Catalog, the Loadout Parser fails with a ValidationError
naming the first such name; in particular it never returns a WeaponSpec,
so a name differing in casing or by a homoglyph is neither fuzzily
accepted nor silently ignored. -/
theorem parseLoadout_first_unknown (catalog : List PropertyDefinition)
    (damageOk : String → Bool) (weaponType damage : String)
    (props : List String) (rank : Nat) (p : String)
    (h : props.find? (fun q => (lookupProperty catalog q).isNone) = some p) :
    parseLoadout catalog damageOk weaponType damage props rank =
      Except.error (ValidationError.unknownProperty p) := by
  unfold parseLoadout
  rw [resolveProperties_first_unknown catalog props p h]

/-- Witness for C2: against a catalog holding the identifiers Stun X
(Latin X) and Bleed 1, a loadout naming Stun Х (Cyrillic letter) fails on
that name, and a loadout naming bleed 1 (different casing) fails on that
name. -/
theorem parseLoadout_first_unknown_witness :
    parseLoadout sampleCatalog (fun _ => true) "Blade" "1d6" ["Stun Х"] 1 =
      Except.error (ValidationError.unknownProperty "Stun Х") ∧
    parseLoadout sampleCatalog (fun _ => true) "Blade" "1d6"
        ["Bleed 1", "bleed 1"] 1 =
      Except.error (ValidationError.unknownProperty "bleed 1") :=
  ⟨parseLoadout_first_unknown sampleCatalog (fun _ => true) "Blade" "1d6"
      ["Stun Х"] 1 "Stun Х" (by decide),
   parseLoadout_first_unknown sampleCatalog (fun _ => true) "Blade" "1d6"
      ["Bleed 1", "bleed 1"] 1 "bleed 1" (by decide)⟩

lemma duelLoop_rounds_le (round : DuelState → DuelState) (fuel : Nat)
    (s : DuelState) (n : Nat) :
    (duelLoop round fuel s n).rounds ≤ n + fuel := by
  induction fuel generalizing s n with
  | zero => simp [duelLoop]
  | succ k ih =>
    rw [duelLoop]
    cases terminalWinner s with
    | some w => exact Nat.le_add_right n (k + 1)
    | none =>
      show (duelLoop round k (round s) (n + 1)).rounds ≤ n + (k + 1)
      have := ih (round s) (n + 1)
      omega

/-- C6: the Duel Driver terminates under the hard round cap for every
round function and every starting pair of combatant states: the trial it
returns ends after at most the cap many rounds, even when the round rules
never reach a terminal condition. -/
theorem runDuel_round_cap (round : DuelState → DuelState) (roundCap : Nat)
    (s : DuelState) :
    (runDuel round roundCap s).rounds ≤ roundCap := by
  have := duelLoop_rounds_le round roundCap s 0
  simpa [runDuel] using this

lemma clampHealth_nonneg (maxHealth : Nat) (h : Int) :
    0 ≤ clampHealth maxHealth h :=
  le_max_left 0 _

lemma clampHealth_le (maxHealth : Nat) (h : Int) :
    clampHealth maxHealth h ≤ (maxHealth : Int) :=
  max_le (Int.natCast_nonneg maxHealth) (min_le_left _ _)

/-- C8: after resolving any round, for any action rules, starting states
and round number, the health of each combatant lies within its valid
bounds: it is never negative and never exceeds that combatant maximum. -/
theorem resolveRound_health_bounds
    (actionRules : DuelState → Nat → RoundAction) (s : DuelState)
    (roundNumber : Nat) :
    (0 ≤ (resolveRound actionRules s roundNumber).side1.health ∧
      (resolveRound actionRules s roundNumber).side1.health ≤
        ((resolveRound actionRules s roundNumber).side1.maxHealth : Int)) ∧
    (0 ≤ (resolveRound actionRules s roundNumber).side2.health ∧
      (resolveRound actionRules s roundNumber).side2.health ≤
        ((resolveRound actionRules s roundNumber).side2.maxHealth : Int)) := by
  simp only [resolveRound, applyDelta]
  exact ⟨⟨clampHealth_nonneg _ _, clampHealth_le _ _⟩,
    ⟨clampHealth_nonneg _ _, clampHealth_le _ _⟩⟩

lemma countWins_add (trials : List TrialResult) :
    countWins Winner.side1 trials + countWins Winner.side2 trials =
      trials.length := by
  induction trials with
  | nil => rfl
  | cons t ts ih =>
    cases hw : t.winner with
    | side1 =>
      simp [countWins, List.filter_cons, hw] at ih ⊢
      omega
    | side2 =>
      simp [countWins, List.filter_cons, hw] at ih ⊢
      omega

/-- C1: for every simulation request run over a positive number of trials,
the two reported win rates sum to exactly 1; draws never leak into the
ratio because every trial is tie-broken to a winner under the fixed
policy. -/
theorem simulateRequest_win_rates_sum (round : DuelState → DuelState)
    (roundCap : Nat) (initState : Nat → DuelState) (numTrials : Nat)
    (h : 0 < numTrials) :
    (simulateRequest round roundCap initState numTrials).weapon1_win_rate +
      (simulateRequest round roundCap initState numTrials).weapon2_win_rate
      = 1 := by
  unfold simulateRequest aggregate
  simp only []
  set trials := (List.range numTrials).map
    (fun i => runDuel round roundCap (initState i)) with htrials
  have hlen : trials.length = numTrials := by simp [htrials]
  have hc := countWins_add trials
  have hne : (trials.length : ℚ) ≠ 0 := by
    rw [hlen]
    exact_mod_cast h.ne'
  have hcQ : (countWins Winner.side1 trials : ℚ) +
      (countWins Winner.side2 trials : ℚ) = (trials.length : ℚ) := by
    exact_mod_cast hc
  rw [div_add_div_same, hcQ]
  exact div_self hne

/-- Witness for C1 at one trial of the identity round function from the
sample duel state. -/
theorem simulateRequest_win_rates_sum_witness :
    0 < 1 ∧
    (simulateRequest id 1 (fun _ => sampleDuelState) 1).weapon1_win_rate +
      (simulateRequest id 1 (fun _ => sampleDuelState) 1).weapon2_win_rate
      = 1 :=
  ⟨Nat.one_pos,
   simulateRequest_win_rates_sum id 1 (fun _ => sampleDuelState) 1 Nat.one_pos⟩

lemma mcLoop_cap_exhausted (trial : Nat → Except String TrialResult)
    (ts : Nat → TrialResult) (stopRule : List TrialResult → Bool)
    (hstop : ∀ l, stopRule l = false)
    (htrial : ∀ i, trial i = Except.ok (ts i)) :
    ∀ (fuel : Nat) (acc : List TrialResult),
      ∃ l : List TrialResult,
        mcLoop trial stopRule fuel acc =
          ControllerResult.success (aggregate l) true ∧
        l.length = fuel + acc.length := by
  intro fuel
  induction fuel with
  | zero =>
    intro acc
    exact ⟨acc.reverse, rfl, by simp⟩
  | succ k ih =>
    intro acc
    rw [mcLoop, hstop, htrial]
    simp only [if_false]
    obtain ⟨l, hl, hlen⟩ := ih (ts acc.length :: acc)
    refine ⟨l, hl, ?_⟩
    simp only [List.length_cons] at hlen
    omega

/-- C7: whenever the stopping rule never fires before the trial cap and
trials keep succeeding, the Monte Carlo Controller returns the aggregated
result as a degraded success, with the simulations field equal to the
number of trials actually run, rather than failing. -/
theorem runController_cap_degraded (trial : Nat → Except String TrialResult)
    (ts : Nat → TrialResult) (stopRule : List TrialResult → Bool)
    (trialCap : Nat)
    (hstop : ∀ l, stopRule l = false)
    (htrial : ∀ i, trial i = Except.ok (ts i)) :
    ∃ agg, runController trial stopRule trialCap =
        ControllerResult.success agg true ∧
      agg.simulations = trialCap := by
  obtain ⟨l, hl, hlen⟩ :=
    mcLoop_cap_exhausted trial ts stopRule hstop htrial trialCap []
  refine ⟨aggregate l, by simpa [runController] using hl, ?_⟩
  have : (aggregate l).simulations = l.length := rfl
  rw [this, hlen]
  simp

/-- Witness for C7: with a never-firing stopping rule and two as the trial
cap, the controller returns a degraded success that used exactly two
trials. -/
theorem runController_cap_degraded_witness :
    ∃ agg, runController (fun _ => Except.ok { winner := Winner.side1, rounds := 3 })
        (fun _ => false) 2 = ControllerResult.success agg true ∧
      agg.simulations = 2 :=
  runController_cap_degraded
    (fun _ => Except.ok { winner := Winner.side1, rounds := 3 })
    (fun _ => { winner := Winner.side1, rounds := 3 })
    (fun _ => false) 2 (fun _ => rfl) (fun _ => rfl)

end Andromeda
